import Mathlib

/-!
Verification development for the wwebjs-api event-dispatch core.

The JavaScript source is shallowly embedded: promises are modelled as
an optional settled outcome (none means the promise never settles,
some (.ok _) means it resolved, some (.error _) means it rejected);
network and socket activity is modelled as explicit effect lists; the
global wssMap and the session registry are modelled as association
lists passed explicitly.
-/

namespace WA

/-- Outcome of a JS promise: none means it never settles, some (.ok a)
means it resolved with a, some (.error e) means it rejected with e. -/
abbrev PromiseOutcome (α : Type) := Option (Except String α)

/-- Chaining a continuation on a promise (p.then f): the continuation runs
only when the promise resolves; a pending promise stays pending and a
rejection propagates. -/
def thenP {α β : Type} (p : PromiseOutcome α) (f : α → PromiseOutcome β) :
    PromiseOutcome β :=
  match p with
  | none => none
  | some (Except.error e) => some (Except.error e)
  | some (Except.ok a) => f a

/-- Embedding of checkIfEventisEnabled from the utils module: returns a
promise that is resolved inside the executor only when the event is not in
disabledCallbacks; when the event is disabled the executor returns without
calling resolve or reject, so the promise never settles. -/
def checkIfEventisEnabled (disabledCallbacks : List String) (event : String) :
    PromiseOutcome Unit :=
  if disabledCallbacks.contains event then none else some (Except.ok ())

/-- The Callback Filter contract as the spec words it: a boolean that is
true exactly when the dataType is not a member of the suppression set. -/
def isEnabledSpec (disabledCallbacks : List String) (dataType : String) : Bool :=
  ! disabledCallbacks.contains dataType

/-- The JSON body of a webhook POST or a websocket send. -/
structure Envelope where
  dataType : String
  data : String
  sessionId : String
deriving DecidableEq, Repr

/-- One HTTP POST issued by the webhook dispatcher: destination, body and
the shared-secret header value. -/
structure PostRequest where
  url : String
  body : Envelope
  apiKeyHeader : String
deriving DecidableEq, Repr

/-- Log entries emitted by the webhook dispatcher. -/
inductive LogEntry where
  | debug (sessionId dataType msg : String)
  | err (sessionId dataType errMsg msg : String)
deriving DecidableEq, Repr

/-- What one call to triggerWebhook produces: the POSTs it issues, the log
entries it writes, and the outcome its caller observes. -/
structure WebhookRun where
  posts : List PostRequest
  logs : List LogEntry
  outcome : Except String Unit
deriving Repr

/-- Embedding of triggerWebhook: axios.post issues one POST whose body is
the object with fields dataType, data, sessionId and whose headers carry
the x-api-key secret; the delivery outcome netOutcome is handled by the
attached then/catch handlers, which only log, so the caller always
observes normal completion. -/
def triggerWebhook (globalApiKey : String) (netOutcome : Except String Unit)
    (webhookURL sessionId dataType data : String) : WebhookRun :=
  let post : PostRequest :=
    { url := webhookURL
      body := { dataType := dataType, data := data, sessionId := sessionId }
      apiKeyHeader := globalApiKey }
  match netOutcome with
  | Except.ok _ =>
      { posts := [post]
        logs := [LogEntry.debug sessionId dataType
          ("New webhook message sent to " ++ webhookURL)]
        outcome := Except.ok () }
  | Except.error e =>
      { posts := [post]
        logs := [LogEntry.err sessionId dataType e
          ("Failed to send new webhook message to " ++ webhookURL)]
        outcome := Except.ok () }

/-- Character-list core of the JS string startsWith check: code units are
compared from position 0. -/
def listStartsWith : List Char → List Char → Bool
  | _, [] => true
  | [], _ :: _ => false
  | c :: s, p :: ps => if c = p then listStartsWith s ps else false

/-- Embedding of JS String.prototype.startsWith. -/
def jsStartsWith (s pre2 : String) : Bool :=
  listStartsWith s.data pre2.data

/-- Character-list core of JS String.prototype.split on a one-character
separator: every occurrence of the separator ends a piece, and the empty
string splits to one empty piece. -/
def splitChar (sep : Char) : List Char → List (List Char)
  | [] => [[]]
  | c :: rest =>
      if c = sep then [] :: splitChar sep rest
      else
        match splitChar sep rest with
        | h :: t => (c :: h) :: t
        | [] => [[c]]

/-- Embedding of JS String.prototype.split on a one-character separator. -/
def jsSplit (s : String) (sep : Char) : List String :=
  (splitChar sep s.data).map (fun l => String.mk l)

/-- A JS value as far as the nested-object walk observes it: nullish
values, objects with string-keyed fields, and other primitives carrying
only their truthiness. -/
inductive JSVal where
  | nullish
  | obj (fields : List (String × JSVal))
  | prim (truthy : Bool)

/-- Property access obj[key]: a field lookup on objects, undefined
otherwise. -/
def getField : JSVal → String → JSVal
  | JSVal.obj fields, key =>
      match fields.find? (fun p => p.1 == key) with
      | some p => p.2
      | none => JSVal.nullish
  | _, _ => JSVal.nullish

/-- JS truthiness of a value as the walk tests it. -/
def truthy : JSVal → Bool
  | JSVal.nullish => false
  | JSVal.obj _ => true
  | JSVal.prim b => b

/-- Embedding of the nested-path walk in waitForNestedObject:
nestedPath.split(dot).reduce with accumulator obj going to obj[key] when
obj is truthy and to undefined otherwise, starting from rootObj. -/
def nestedLookup (rootObj : JSVal) (nestedPath : String) : JSVal :=
  (jsSplit nestedPath ('.')).foldl
    (fun o key => if truthy o then getField o key else JSVal.nullish) rootObj

/-- Embedding of the polling loop checkObject inside waitForNestedObject,
one poll per fuel unit: poll k happens at elapsed time k * interval; the
nested value is checked first, then the elapsed time against maxWaitTime;
otherwise the loop re-arms. Running out of fuel leaves the promise
pending (none); the resolution carries the index of the settling poll. -/
def waitPoll (present : Nat → Bool) (maxWaitTime interval : Nat) :
    Nat → Nat → PromiseOutcome Nat
  | 0, _ => none
  | fuel + 1, k =>
      if present k then some (Except.ok k)
      else if maxWaitTime < k * interval then
        some (Except.error ("Timeout waiting for nested object"))
      else waitPoll present maxWaitTime interval fuel (k + 1)

/-- Embedding of waitForNestedObject: the root object evolves over time
(rootAt k is its state at the k-th poll) and the loop starts at poll 0. -/
def waitForNestedObject (rootAt : Nat → JSVal) (nestedPath : String)
    (maxWaitTime interval fuel : Nat) : PromiseOutcome Nat :=
  waitPoll (fun k => truthy (nestedLookup (rootAt k) nestedPath))
    maxWaitTime interval fuel 0

/-- A websocket server entry in the wssMap: the acceptor identity and its
set of live subscriber connections (connections carried as numeric ids). -/
structure WSServer where
  serverId : Nat
  clients : List Nat
deriving DecidableEq, Repr

/-- The module-level wssMap, keyed by session id. -/
abbrev WssMap := List (String × WSServer)

/-- Map.get: the value at a key, if present. -/
def mapGet : WssMap → String → Option WSServer
  | [], _ => none
  | p :: m, sid => if p.1 == sid then some p.2 else mapGet m sid

/-- Map.set: replace the value at an existing key, otherwise append. -/
def mapSet : WssMap → String → WSServer → WssMap
  | [], sid, s => [(sid, s)]
  | p :: m, sid, s => if p.1 == sid then (sid, s) :: m else p :: mapSet m sid s

/-- Map.delete: remove the entry at the key, if any. -/
def mapDelete : WssMap → String → WssMap
  | [], _ => []
  | p :: m, sid => if p.1 == sid then mapDelete m sid else p :: mapDelete m sid

/-- Embedding of initWebSocketServer: only acts when enableWebSocket is
set; returns early when an entry for the session id already exists
(session restart), otherwise creates a fresh acceptor with no clients and
stores it in the map. -/
def initWebSocketServer (enableWebSocket : Bool) (freshId : Nat)
    (m : WssMap) (sessionId : String) : WssMap :=
  if enableWebSocket then
    match mapGet m sessionId with
    | some _ => m
    | none => mapSet m sessionId { serverId := freshId, clients := [] }
  else m

/-- Observable socket-level actions of the hub. -/
inductive WSEffect where
  | closeAcceptor (sessionId : String)
  | terminateConn (conn : Nat)
  | send (conn : Nat) (msg : Envelope)
  | awaitClosed (sessionId : String)
deriving DecidableEq, Repr

/-- Embedding of terminateWebSocketServer: a missing entry resolves
immediately with no effects; otherwise server.close is invoked (producing
the close signal), every client is terminated, the entry is deleted, and
the call returns only after awaiting the close confirmation, which is the
last effect of the trace. -/
def terminateWebSocketServer (m : WssMap) (sessionId : String) :
    WssMap × List WSEffect :=
  match mapGet m sessionId with
  | none => (m, [])
  | some server =>
      (mapDelete m sessionId,
       WSEffect.closeAcceptor sessionId ::
         server.clients.map WSEffect.terminateConn ++
         [WSEffect.awaitClosed sessionId])

/-- Embedding of triggerWebSocket: a missing entry sends nothing;
otherwise the JSON envelope with fields dataType, data, sessionId is sent
to every client of that session's server. -/
def triggerWebSocket (m : WssMap) (sessionId dataType data : String) :
    List WSEffect :=
  match mapGet m sessionId with
  | none => []
  | some server =>
      server.clients.map (fun c =>
        WSEffect.send c { dataType := dataType, data := data, sessionId := sessionId })

/-- Transport-level outcome of a connection-upgrade request. -/
inductive UpgradeResult where
  | accepted (sessionId : String)
  | destroyed
deriving DecidableEq, Repr

/-- Adding an accepted connection to the clients of the entry at sid. -/
def addClient : WssMap → String → Nat → WssMap
  | [], _, _ => []
  | p :: m, sid, conn =>
      if p.1 == sid then (p.1, { p.2 with clients := p.2.clients ++ [conn] }) :: m
      else p :: addClient m sid conn

/-- Number of wssMap entries held for a session id. -/
def countKey : WssMap → String → Nat
  | [], _ => 0
  | p :: m, sid => (if p.1 == sid then 1 else 0) + countKey m sid

/-- Embedding of handleUpgrade: the pathname is taken from the request
URL; when it starts with the /ws/ prefix, the session id is the third
component of pathname.split on slash, and if the wssMap holds an entry
the upgrade is accepted and the connection joins that entry's clients;
in every other case the raw socket is destroyed. -/
def handleUpgrade (m : WssMap) (pathname : String) (conn : Nat) :
    WssMap × UpgradeResult :=
  if jsStartsWith pathname ("/ws/") then
    let sessionId := (jsSplit pathname ('/')).getD 2 ("")
    match mapGet m sessionId with
    | some _ => (addClient m sessionId conn, UpgradeResult.accepted sessionId)
    | none => (m, UpgradeResult.destroyed)
  else (m, UpgradeResult.destroyed)

/-- One hub-facing operation, used to close the hub state under every way
the source mutates the wssMap. -/
inductive HubOp where
  | init (freshId : Nat) (sessionId : String)
  | term (sessionId : String)
  | upgrade (pathname : String) (conn : Nat)

/-- Folding a sequence of hub operations over a map under a fixed
enableWebSocket configuration. -/
def runHubOps (enableWebSocket : Bool) (ops : List HubOp) (m : WssMap) : WssMap :=
  match ops with
  | [] => m
  | HubOp.init freshId sid :: rest =>
      runHubOps enableWebSocket rest (initWebSocketServer enableWebSocket freshId m sid)
  | HubOp.term sid :: rest =>
      runHubOps enableWebSocket rest (terminateWebSocketServer m sid).1
  | HubOp.upgrade pathname conn :: rest =>
      runHubOps enableWebSocket rest (handleUpgrade m pathname conn).1

/-- Lifecycle states of a session, from the spec's state machine. -/
inductive SessionStatus where
  | STARTING
  | QR_PENDING
  | CONNECTED
  | DISCONNECTED
  | TERMINATED
deriving DecidableEq, Repr

/-- A registry entry: the session's id and its lifecycle status. -/
structure Session where
  id : String
  status : SessionStatus
deriving DecidableEq, Repr

/-- The session registry, keyed by session id. -/
abbrev Registry := List (String × Session)

/-- Outcome of a create request on the registry. -/
inductive CreateOutcome where
  | ok
  | conflict
deriving DecidableEq, Repr

/-- Whether an active (non-terminated) session with this id exists. -/
def hasActive : Registry → String → Bool
  | [], _ => false
  | p :: reg, sid =>
      (p.1 == sid && p.2.status != SessionStatus.TERMINATED) || hasActive reg sid

/-- Number of registry entries held for an id. -/
def countId : Registry → String → Nat
  | [], _ => 0
  | p :: reg, sid => (if p.1 == sid then 1 else 0) + countId reg sid

/-- Modelled from the spec: the Session Registry's create operation lives
in the sessions module, which is not among the provided sources (only its
caller startSession is). Per the spec, create fails with Conflict when an
active (non-terminated) session with the id already exists, leaving the
registry untouched; on success it inserts a Session in STARTING. -/
def create (reg : Registry) (sessionId : String) : Registry × CreateOutcome :=
  if hasActive reg sessionId then (reg, CreateOutcome.conflict)
  else ((sessionId, { id := sessionId, status := SessionStatus.STARTING }) :: reg,
        CreateOutcome.ok)

/-- Modelled from the spec: the Session Supervisor's event binding lives
in the sessions module, which is not among the provided sources. Per the
spec (and the utils it calls, embedded above), each automation-client
event chains the dispatch continuation on checkIfEventisEnabled and, when
that promise resolves, triggers the webhook dispatcher and the websocket
hub for the session; when the promise never settles the continuation is
abandoned and neither sink is reached. -/
def dispatchEvent (disabledCallbacks : List String) (globalApiKey : String)
    (netOutcome : Except String Unit) (m : WssMap)
    (webhookURL sessionId dataType data : String) :
    List PostRequest × List WSEffect :=
  match thenP (checkIfEventisEnabled disabledCallbacks dataType)
      (fun _ => some (Except.ok
        ((triggerWebhook globalApiKey netOutcome webhookURL sessionId dataType data).posts,
         triggerWebSocket m sessionId dataType data))) with
  | some (Except.ok effects) => effects
  | _ => ([], [])

/-! Helper lemmas about the map embedding. -/


lemma mapGet_mapDelete_self (m : WssMap) (sid : String) :
    mapGet (mapDelete m sid) sid = none := by
  induction m with
  | nil => rfl
  | cons p m ih =>
      by_cases h : p.1 = sid
      · simpa [mapDelete, h] using ih
      · simpa [mapDelete, mapGet, h] using ih

lemma mapGet_mapDelete_other (m : WssMap) (sid sid2 : String) (h : sid2 ≠ sid) :
    mapGet (mapDelete m sid) sid2 = mapGet m sid2 := by
  induction m with
  | nil => rfl
  | cons p m ih =>
      have h2 : ¬ sid = sid2 := fun hc => h hc.symm
      by_cases hp : p.1 = sid
      · simpa [mapDelete, mapGet, hp, h2] using ih
      · by_cases hq : p.1 = sid2
        · simp [mapDelete, mapGet, hp, hq, h]
        · simpa [mapDelete, mapGet, hp, hq] using ih

lemma mapGet_addClient_self (m : WssMap) (sid : String) (conn : Nat)
    (srv : WSServer) (h : mapGet m sid = some srv) :
    mapGet (addClient m sid conn) sid =
      some { srv with clients := srv.clients ++ [conn] } := by
  induction m with
  | nil => simp [mapGet] at h
  | cons p m ih =>
      by_cases hp : p.1 = sid
      · simp [mapGet, hp] at h
        simp [addClient, mapGet, hp, h]
      · simp [mapGet, hp] at h
        simpa [addClient, mapGet, hp] using ih h

lemma mapGet_mapSet_fresh (m : WssMap) (sid : String) (s : WSServer)
    (h : mapGet m sid = none) : mapGet (mapSet m sid s) sid = some s := by
  induction m with
  | nil => simp [mapSet, mapGet]
  | cons p m ih =>
      by_cases hp : p.1 = sid
      · simp [mapGet, hp] at h
      · simp [mapGet, hp] at h
        simpa [mapSet, mapGet, hp] using ih h

lemma countKey_mapSet_fresh (m : WssMap) (sid : String) (s : WSServer)
    (h : mapGet m sid = none) : countKey (mapSet m sid s) sid = countKey m sid + 1 := by
  induction m with
  | nil => simp [mapSet, countKey]
  | cons p m ih =>
      by_cases hp : p.1 = sid
      · simp [mapGet, hp] at h
      · simp [mapGet, hp] at h
        simp [mapSet, countKey, hp, ih h]


lemma countKey_zero_of_none (m : WssMap) (sid : String) (h : mapGet m sid = none) :
    countKey m sid = 0 := by
  induction m with
  | nil => rfl
  | cons p m ih =>
      by_cases hp : p.1 = sid
      · simp [mapGet, hp] at h
      · simp [mapGet, hp] at h
        simp [countKey, hp, ih h]

end WA

namespace WA

/-- C6: for a session id with a hub entry, terminateWebSocketServer removes
the entry (leaving every other session's entry untouched), emits a
terminate for every subscriber connection of that session, and its effect
trace ends with awaiting the acceptor's close confirmation; for an id with
no entry it returns immediately with no effects and an unchanged map. -/
theorem terminateWebSocketServer_close_semantics (m : WssMap) (sid : String) :
    (mapGet m sid = none → terminateWebSocketServer m sid = (m, [])) ∧
    (∀ srv, mapGet m sid = some srv →
      (terminateWebSocketServer m sid).1 = mapDelete m sid ∧
      mapGet (terminateWebSocketServer m sid).1 sid = none ∧
      (∀ sid2, sid2 ≠ sid →
        mapGet (terminateWebSocketServer m sid).1 sid2 = mapGet m sid2) ∧
      (∀ c, c ∈ srv.clients →
        WSEffect.terminateConn c ∈ (terminateWebSocketServer m sid).2) ∧
      (terminateWebSocketServer m sid).2.getLast? =
        some (WSEffect.awaitClosed sid)) := by
  constructor
  · intro h
    simp [terminateWebSocketServer, h]
  · intro srv h
    refine ⟨by simp [terminateWebSocketServer, h], ?_, ?_, ?_, ?_⟩
    · simp [terminateWebSocketServer, h, mapGet_mapDelete_self]
    · intro sid2 hne
      simp [terminateWebSocketServer, h, mapGet_mapDelete_other m sid sid2 hne]
    · intro c hc
      simp only [terminateWebSocketServer, h]
      exact List.mem_cons_of_mem _
        (List.mem_append_left _ (List.mem_map_of_mem _ hc))
    · simp only [terminateWebSocketServer, h]
      rw [List.getLast?_concat]

theorem terminateWebSocketServer_close_semantics_witness :
    mapGet ([(("s"), ⟨0, [1, 2]⟩)]) ("s") = some ⟨0, [1, 2]⟩ ∧
    (terminateWebSocketServer ([(("s"), ⟨0, [1, 2]⟩)]) ("s")).1 = [] ∧
    WSEffect.terminateConn 1 ∈ (terminateWebSocketServer ([(("s"), ⟨0, [1, 2]⟩)]) ("s")).2 ∧
    (terminateWebSocketServer ([(("s"), ⟨0, [1, 2]⟩)]) ("s")).2.getLast? =
      some (WSEffect.awaitClosed ("s")) := by
  have h := (terminateWebSocketServer_close_semantics ([(("s"), ⟨0, [1, 2]⟩)]) ("s")).2
    ⟨0, [1, 2]⟩ rfl
  exact ⟨rfl, by simpa [mapDelete] using h.1, h.2.2.2.1 1 (by decide), h.2.2.2.2⟩

/-- C7: initWebSocketServer is idempotent per session id: when an entry
already exists the hub map is returned unchanged (the same acceptor
remains, no duplicate is created), so calling it at creation and again at
restart yields exactly one entry for the id. -/
theorem initWebSocketServer_idempotent (enable : Bool) (freshId freshId2 : Nat)
    (m : WssMap) (sid : String) :
    (∀ srv, mapGet m sid = some srv →
      initWebSocketServer enable freshId m sid = m) ∧
    (mapGet m sid = none →
      countKey (initWebSocketServer true freshId m sid) sid = 1 ∧
      initWebSocketServer true freshId2 (initWebSocketServer true freshId m sid) sid =
        initWebSocketServer true freshId m sid) := by
  constructor
  · intro srv h
    cases enable <;> simp [initWebSocketServer, h]
  · intro h
    have hset : mapGet (mapSet m sid ⟨freshId, []⟩) sid = some ⟨freshId, []⟩ :=
      mapGet_mapSet_fresh m sid _ h
    refine ⟨?_, ?_⟩
    · simp [initWebSocketServer, h, countKey_mapSet_fresh m sid _ h,
        countKey_zero_of_none m sid h]
    · simp [initWebSocketServer, h, hset]

theorem initWebSocketServer_idempotent_witness :
    countKey (initWebSocketServer true 5 ([]) ("s")) ("s") = 1 ∧
    initWebSocketServer true 6 (initWebSocketServer true 5 ([]) ("s")) ("s") =
      initWebSocketServer true 5 ([]) ("s") := by
  exact (initWebSocketServer_idempotent true 5 6 ([]) ("s")).2 rfl

/-- C8: a connection upgrade whose pathname starts with the /ws/ prefix
and whose extracted session id (third split component) has a hub entry is
accepted and the connection joins that session's subscriber set; any other
upgrade request has its raw socket destroyed with the hub map unchanged,
with no error body at the transport level. -/
theorem handleUpgrade_transport (m : WssMap) (pathname : String) (conn : Nat) :
    (jsStartsWith pathname ("/ws/") = false →
      handleUpgrade m pathname conn = (m, UpgradeResult.destroyed)) ∧
    (∀ sid, jsStartsWith pathname ("/ws/") = true →
      (jsSplit pathname ('/')).getD 2 ("") = sid →
      (mapGet m sid = none →
        handleUpgrade m pathname conn = (m, UpgradeResult.destroyed)) ∧
      (∀ srv, mapGet m sid = some srv →
        (handleUpgrade m pathname conn).2 = UpgradeResult.accepted sid ∧
        mapGet (handleUpgrade m pathname conn).1 sid =
          some { srv with clients := srv.clients ++ [conn] })) := by
  constructor
  · intro h
    simp [handleUpgrade, h]
  · intro sid hpre hsid
    have hg : handleUpgrade m pathname conn =
        (match mapGet m sid with
         | some _ => (addClient m sid conn, UpgradeResult.accepted sid)
         | none => (m, UpgradeResult.destroyed)) := by
      simp only [handleUpgrade, hpre, if_true]
      rw [hsid]
    constructor
    · intro h
      rw [hg, h]
    · intro srv h
      rw [hg, h]
      exact ⟨rfl, mapGet_addClient_self m sid conn srv h⟩

theorem handleUpgrade_transport_witness :
    (handleUpgrade ([(("abc"), ⟨0, [3]⟩)]) ("/ws/abc") 7).2 =
      UpgradeResult.accepted ("abc") ∧
    mapGet (handleUpgrade ([(("abc"), ⟨0, [3]⟩)]) ("/ws/abc") 7).1 ("abc") =
      some ⟨0, [3, 7]⟩ ∧
    (handleUpgrade ([(("abc"), ⟨0, [3]⟩)]) ("/ws/xyz") 7) =
      (([(("abc"), ⟨0, [3]⟩)]), UpgradeResult.destroyed) := by
  have h1 := ((handleUpgrade_transport ([(("abc"), ⟨0, [3]⟩)]) ("/ws/abc") 7).2
    ("abc") (by decide) (by decide)).2 ⟨0, [3]⟩ rfl
  have h2 := ((handleUpgrade_transport ([(("abc"), ⟨0, [3]⟩)]) ("/ws/xyz") 7).2
    ("xyz") (by decide) (by decide)).1 rfl
  exact ⟨h1.1, h1.2, h2⟩

/-- C10: with websocket mode disabled, no sequence of hub operations ever
inserts an entry into the hub map; consequently triggerWebSocket sends
nothing for every session id and event, and every upgrade request reaching
handleUpgrade has its socket destroyed. -/
theorem websocket_disabled_inactive (ops : List HubOp) (sid dataType data pathname : String)
    (conn : Nat) :
    runHubOps false ops ([]) = ([]) ∧
    triggerWebSocket (runHubOps false ops ([])) sid dataType data = ([]) ∧
    (handleUpgrade (runHubOps false ops ([])) pathname conn).2 =
      UpgradeResult.destroyed := by
  have hnil : ∀ (p : String) (c : Nat), (handleUpgrade ([]) p c).1 = ([]) := by
    intro p c
    by_cases hp : jsStartsWith p ("/ws/") = true
    · simp [handleUpgrade, hp, mapGet]
    · simp [handleUpgrade, hp]
  have hrun : runHubOps false ops ([]) = ([]) := by
    induction ops with
    | nil => rfl
    | cons op rest ih =>
        cases op with
        | init freshId s => simpa [runHubOps, initWebSocketServer] using ih
        | term s => simpa [runHubOps, terminateWebSocketServer, mapGet] using ih
        | upgrade p c => simpa [runHubOps, hnil p c] using ih
  refine ⟨hrun, ?_, ?_⟩
  · simp [hrun, triggerWebSocket, mapGet]
  · by_cases hp : jsStartsWith pathname ("/ws/") = true
    · simp [hrun, handleUpgrade, hp, mapGet]
    · simp [hrun, handleUpgrade, hp]

lemma hasActive_false_of_countId_zero (reg : Registry) (sid : String)
    (h : countId reg sid = 0) : hasActive reg sid = false := by
  induction reg with
  | nil => rfl
  | cons p reg ih =>
      by_cases hp : p.1 = sid
      · simp [countId, hp] at h
      · simp [countId, hp] at h
        simp [hasActive, hp, ih h]

/-- C1: for a session id with no registry entry, the first create succeeds
and yields exactly one registry entry for that id, and a second create
without an intervening terminate returns Conflict and leaves the registry
(hence every existing session) unchanged. -/
theorem create_conflict_second_call (reg : Registry) (sid : String)
    (h : countId reg sid = 0) :
    (create reg sid).2 = CreateOutcome.ok ∧
    countId (create reg sid).1 sid = 1 ∧
    (create (create reg sid).1 sid).2 = CreateOutcome.conflict ∧
    (create (create reg sid).1 sid).1 = (create reg sid).1 := by
  have h1 : hasActive reg sid = false := hasActive_false_of_countId_zero reg sid h
  have hc : create reg sid =
      ((sid, { id := sid, status := SessionStatus.STARTING }) :: reg,
        CreateOutcome.ok) := by
    simp [create, h1]
  have h2 : hasActive ((sid, { id := sid, status := SessionStatus.STARTING }) :: reg)
      sid = true := by
    simp [hasActive]
  refine ⟨by rw [hc], ?_, ?_, ?_⟩
  · rw [hc]
    simpa [countId] using h
  · rw [hc]
    simp [create, h2]
  · rw [hc]
    simp [create, h2]

theorem create_conflict_second_call_witness :
    (create ([]) ("a")).2 = CreateOutcome.ok ∧
    countId (create ([]) ("a")).1 ("a") = 1 ∧
    (create (create ([]) ("a")).1 ("a")).2 = CreateOutcome.conflict ∧
    (create (create ([]) ("a")).1 ("a")).1 = (create ([]) ("a")).1 := by
  exact create_conflict_second_call ([]) ("a") rfl

/-- C2 counterexample: the claim says the eligibility check returns a
boolean that is false when the dataType is a member of the suppression
set; at the concrete suppressed dataType the check's promise never settles
with any value at all, so no false (nor any boolean) is ever returned. -/
theorem checkIfEventisEnabled_no_value_when_suppressed :
    (checkIfEventisEnabled ([("message")]) ("message")).isSome = false := by
  decide

/-- C2 amended: the eligibility check is pure and side-effect-free, and it
settles exactly when the dataType is not a member of the suppression set:
it resolves precisely when the spec's boolean contract isEnabled would be
true, and it never settles (rather than returning false) when the dataType
is a member. -/
theorem checkIfEventisEnabled_settles_iff_enabled
    (disabledCallbacks : List String) (dataType : String) :
    ((checkIfEventisEnabled disabledCallbacks dataType).isSome =
      isEnabledSpec disabledCallbacks dataType) ∧
    (checkIfEventisEnabled disabledCallbacks dataType = some (Except.ok ()) ↔
      isEnabledSpec disabledCallbacks dataType = true) ∧
    (checkIfEventisEnabled disabledCallbacks dataType = none ↔
      isEnabledSpec disabledCallbacks dataType = false) := by
  by_cases h : dataType ∈ disabledCallbacks
  · simp [checkIfEventisEnabled, isEnabledSpec, h]
  · simp [checkIfEventisEnabled, isEnabledSpec, h]

/-- C9: for every event type in the suppression list, checkIfEventisEnabled
returns a promise that never settles, neither resolving nor rejecting, so
any dispatch continuation chained on it is silently abandoned and never
observes a false value or an error. -/
theorem checkIfEventisEnabled_suppressed_pending
    (disabledCallbacks : List String) (event : String)
    (h : disabledCallbacks.contains event = true) :
    checkIfEventisEnabled disabledCallbacks event = none ∧
    (∀ f : Unit → PromiseOutcome Unit,
      thenP (checkIfEventisEnabled disabledCallbacks event) f = none) := by
  have h2 : event ∈ disabledCallbacks := by simpa using h
  constructor
  · simp [checkIfEventisEnabled, h2]
  · intro f
    simp [checkIfEventisEnabled, h2, thenP]

theorem checkIfEventisEnabled_suppressed_pending_witness :
    checkIfEventisEnabled ([("message")]) ("message") = none ∧
    thenP (checkIfEventisEnabled ([("message")]) ("message"))
      (fun u => some (Except.ok u)) = none := by
  have h := checkIfEventisEnabled_suppressed_pending ([("message")]) ("message")
    (by decide)
  exact ⟨h.1, h.2 _⟩

/-- C4: triggerWebhook issues exactly one HTTP POST to the url, whose body
is the envelope with fields dataType, data, sessionId and whose header
carries the shared secret, with no retries; whatever the delivery outcome,
the caller observes normal completion (nothing is thrown or returned), and
a delivery failure is logged together with the session id and event
type. -/
theorem triggerWebhook_fire_and_forget (globalApiKey : String)
    (netOutcome : Except String Unit) (webhookURL sessionId dataType data : String) :
    (triggerWebhook globalApiKey netOutcome webhookURL sessionId dataType data).posts =
      [{ url := webhookURL
         body := { dataType := dataType, data := data, sessionId := sessionId }
         apiKeyHeader := globalApiKey }] ∧
    (triggerWebhook globalApiKey netOutcome webhookURL sessionId dataType data).outcome =
      Except.ok () ∧
    (∀ e, netOutcome = Except.error e →
      (triggerWebhook globalApiKey netOutcome webhookURL sessionId dataType data).logs =
        [LogEntry.err sessionId dataType e
          ("Failed to send new webhook message to " ++ webhookURL)]) := by
  cases netOutcome with
  | ok u => exact ⟨rfl, rfl, by intro e he; cases he⟩
  | error e =>
      refine ⟨rfl, rfl, ?_⟩
      intro e2 he
      cases he
      rfl

theorem triggerWebhook_fire_and_forget_witness :
    (triggerWebhook ("k") (Except.error ("boom")) ("http://h") ("s1") ("message") ("d")).posts =
      [{ url := ("http://h")
         body := { dataType := ("message"), data := ("d"), sessionId := ("s1") }
         apiKeyHeader := ("k") }] ∧
    (triggerWebhook ("k") (Except.error ("boom")) ("http://h") ("s1") ("message") ("d")).outcome =
      Except.ok () ∧
    (triggerWebhook ("k") (Except.error ("boom")) ("http://h") ("s1") ("message") ("d")).logs =
      [LogEntry.err ("s1") ("message") ("boom")
        ("Failed to send new webhook message to " ++ ("http://h"))] := by
  have h := triggerWebhook_fire_and_forget ("k") (Except.error ("boom")) ("http://h")
    ("s1") ("message") ("d")
  exact ⟨h.1, h.2.1, h.2.2 ("boom") rfl⟩

/-- C3: if dataType message is in the suppression set, the dispatch
pipeline gated by the Callback Filter issues no webhook POST and no
websocket send for any message event: neither the Webhook Dispatcher nor
the WebSocket Hub is ever reached. -/
theorem dispatch_suppressed_message_silent (disabledCallbacks : List String)
    (globalApiKey : String) (netOutcome : Except String Unit) (m : WssMap)
    (webhookURL sessionId data : String)
    (h : disabledCallbacks.contains ("message") = true) :
    dispatchEvent disabledCallbacks globalApiKey netOutcome m webhookURL sessionId
      ("message") data = (([]), ([])) := by
  have h2 : ("message") ∈ disabledCallbacks := by simpa using h
  simp [dispatchEvent, checkIfEventisEnabled, h2, thenP]

theorem dispatch_suppressed_message_silent_witness :
    dispatchEvent ([("message")]) ("k") (Except.ok ()) ([(("s1"), ⟨0, [4]⟩)])
      ("http://h") ("s1") ("message") ("d") = (([]), ([])) := by
  exact dispatch_suppressed_message_silent ([("message")]) ("k") (Except.ok ())
    ([(("s1"), ⟨0, [4]⟩)]) ("http://h") ("s1") ("d") (by decide)

lemma waitPoll_isSome (present : Nat → Bool) (maxWaitTime interval : Nat)
    (hi : 1 ≤ interval) :
    ∀ fuel k, maxWaitTime / interval + 2 ≤ k + fuel →
      k ≤ maxWaitTime / interval + 1 →
      (waitPoll present maxWaitTime interval fuel k).isSome = true := by
  intro fuel
  induction fuel with
  | zero => intro k h1 h2; omega
  | succ fuel ih =>
      intro k h1 h2
      by_cases hp : present k = true
      · simp [waitPoll, hp]
      · by_cases ht : maxWaitTime < k * interval
        · simp [waitPoll, hp, ht]
        · have hk : k * interval ≤ maxWaitTime := Nat.le_of_not_lt ht
          have hkd : k ≤ maxWaitTime / interval :=
            (Nat.le_div_iff_mul_le hi).mpr hk
          have := ih (k + 1) (by omega) (by omega)
          simpa [waitPoll, hp, ht] using this

lemma waitPoll_timeout (present : Nat → Bool) (maxWaitTime interval : Nat)
    (hnever : ∀ j, present j = false) :
    ∀ fuel k r, waitPoll present maxWaitTime interval fuel k = some r →
      r = Except.error ("Timeout waiting for nested object") := by
  intro fuel
  induction fuel with
  | zero => intro k r hr; simp [waitPoll] at hr
  | succ fuel ih =>
      intro k r hr
      rw [waitPoll, hnever k] at hr
      by_cases ht : maxWaitTime < k * interval
      · simp [ht] at hr
        exact hr.symm
      · simp [ht] at hr
        exact ih (k + 1) r hr

lemma waitPoll_resolve (present : Nat → Bool) (maxWaitTime interval : Nat) :
    ∀ fuel k j, waitPoll present maxWaitTime interval fuel k = some (Except.ok j) →
      present j = true ∧ ∀ l, k ≤ l → l < j → present l = false := by
  intro fuel
  induction fuel with
  | zero => intro k j hr; simp [waitPoll] at hr
  | succ fuel ih =>
      intro k j hr
      by_cases hp : present k = true
      · rw [waitPoll, if_pos hp] at hr
        have hkj : k = j := by
          simpa using hr
        subst hkj
        exact ⟨hp, fun l h1 h2 => by omega⟩
      · by_cases ht : maxWaitTime < k * interval
        · rw [waitPoll, if_neg hp, if_pos ht] at hr
          simp at hr
        · rw [waitPoll, if_neg hp, if_neg ht] at hr
          obtain ⟨hj, hlt⟩ := ih (k + 1) j hr
          refine ⟨hj, fun l h1 h2 => ?_⟩
          by_cases hl : l = k
          · subst hl
            exact Bool.not_eq_true _ ▸ (by simpa using hp)
          · exact hlt l (by omega) h2

/-- C5: the readiness wait always settles: for every evolving root object
and nested path, with a positive poll interval and enough polls to cross
the maximum wait bound, the promise is settled (not pending); if the
nested value is never truthy it rejects with the timeout error, and if it
resolves it does so at the first poll at which the value is truthy. -/
theorem waitForNestedObject_always_settles (rootAt : Nat → JSVal)
    (nestedPath : String) (maxWaitTime interval : Nat) (hi : 1 ≤ interval) :
    ∃ r, waitForNestedObject rootAt nestedPath maxWaitTime interval
        (maxWaitTime / interval + 2) = some r ∧
      ((∀ k, truthy (nestedLookup (rootAt k) nestedPath) = false) →
        r = Except.error ("Timeout waiting for nested object")) ∧
      (∀ j, r = Except.ok j →
        truthy (nestedLookup (rootAt j) nestedPath) = true ∧
        ∀ l, l < j → truthy (nestedLookup (rootAt l) nestedPath) = false) := by
  have hs := waitPoll_isSome (fun k => truthy (nestedLookup (rootAt k) nestedPath))
    maxWaitTime interval hi (maxWaitTime / interval + 2) 0
    (Nat.le_of_eq (Nat.zero_add _).symm) (Nat.zero_le _)
  rw [Option.isSome_iff_exists] at hs
  obtain ⟨r, hr⟩ := hs
  refine ⟨r, hr, ?_, ?_⟩
  · intro hnever
    exact waitPoll_timeout _ maxWaitTime interval hnever _ 0 r hr
  · intro j hj
    subst hj
    have := waitPoll_resolve (fun k => truthy (nestedLookup (rootAt k) nestedPath))
      maxWaitTime interval _ 0 j hr
    exact ⟨this.1, fun l hl => this.2 l (Nat.zero_le l) hl⟩

theorem waitForNestedObject_always_settles_witness :
    ∃ r, waitForNestedObject (fun _ : Nat => JSVal.nullish) ("pupPage") 10000 100
        (10000 / 100 + 2) = some r ∧
      ((∀ k, truthy (nestedLookup ((fun _ : Nat => JSVal.nullish) k) ("pupPage")) = false) →
        r = Except.error ("Timeout waiting for nested object")) ∧
      (∀ j, r = Except.ok j →
        truthy (nestedLookup ((fun _ : Nat => JSVal.nullish) j) ("pupPage")) = true ∧
        ∀ l, l < j →
          truthy (nestedLookup ((fun _ : Nat => JSVal.nullish) l) ("pupPage")) = false) := by
  exact waitForNestedObject_always_settles (fun _ : Nat => JSVal.nullish) ("pupPage")
    10000 100 (by decide)

end WA
